import Mathlib

/-!
# JNI shims of `gnome.c` (SWT Program, GNOME binding)

A shallow embedding of the thirteen JNI entry points of
`bundles/org.eclipse.swt/Eclipse SWT Program/gnome/library/gnome.c`.

Every shim is straight-line code around calls into two external parties: the
JNI environment (`Get<T>ArrayElements`, `Release<T>ArrayElements`) and the
GNOME / GnomeVFS / libc library.  Neither party is part of the repository, so
both are parameters of the embedding (`JNIEnv`), and what a shim does is the
sequence of calls it makes (`Event`), the value it returns and whether it
executed `goto fail`.

Conventions.
* A machine word (`jint`, `jintLong`, a pointer, a `jarray` reference,
  `size_t`) is represented by the integer held by the signed integer type of
  the same width.  A cast between two types of the same width keeps the bits
  and is therefore the identity: `(GnomeIconTheme *)arg0`, `(const char *)lparg2`,
  `(jintLong)gnome_icon_theme_new()`, `(size_t)arg2`.  `NULL` is `0`.
* The two narrowing casts are explicit: `(jboolean)` reduces modulo `2^8`
  (`jboolean` is an unsigned 8-bit type), `(jint)` wraps to 32 bits.
* `GNOME_NATIVE_ENTER` / `GNOME_NATIVE_EXIT` (from `gnome_stats.h`) only update
  call statistics and make no JNI or library call; they are not represented.
-/

namespace GNOME

/-- Element type of a managed array: selects `GetByteArrayElements`,
`GetIntArrayElements` or `GetIntLongArrayElements` (and the matching release). -/
inductive ArrayKind where
  | byte
  | int
  | intLong
  deriving DecidableEq, Repr

/-- Library entry points called by the shims with array or value arguments. -/
inductive NativeFn where
  | GnomeVFSMimeApplication_sizeof
  | gnome_icon_lookup
  | gnome_icon_theme_lookup_icon
  | gnome_icon_theme_new
  | gnome_vfs_get_mime_type
  | gnome_vfs_init
  | gnome_vfs_is_executable_command_string
  | gnome_vfs_make_uri_from_input
  | gnome_vfs_mime_application_free
  | gnome_vfs_mime_get_default_application
  | gnome_vfs_mime_type_from_name
  | gnome_vfs_mime_type_get_equivalence
  deriving DecidableEq, Repr

/-- One call made by a shim, with its actual arguments and its result.
`slot` is the index of the shim argument the call is made for (`arg2` is slot 2). -/
inductive Event where
  /-- The call `(*env)->Get<kind>ArrayElements(env, array, NULL)` returned `buf`. -/
  | pin (slot : Nat) (kind : ArrayKind) (array buf : Int)
  /-- The call `fn(args)` returned `ret` (`0` for a `void` function). -/
  | native (fn : NativeFn) (args : List Int) (ret : Int)
  /-- The call `(*env)->Release<kind>ArrayElements(env, array, buf, mode)`. -/
  | release (slot : Nat) (kind : ArrayKind) (array buf mode : Int)
  /-- The libc call `memmove(dest, src, n)`. -/
  | memmove (dest src n : Int)
  /-- The call `setGnomeVFSMimeApplicationFields(env, obj, ptr)`. -/
  | setFields (obj ptr : Int)
  deriving DecidableEq, Repr

/-- The world outside the shims.  Both functions see the calls made so far, so
their answers may depend on everything that happened before. -/
structure JNIEnv where
  /-- Result of `Get<kind>ArrayElements(env, array, NULL)`; `0` is `NULL`, pin failure. -/
  GetArrayElements : List Event → ArrayKind → Int → Int
  /-- Result of the library function `fn` applied to `args`. -/
  callNative : List Event → NativeFn → List Int → Int

/-- The locals shared by all shims: the calls made so far, whether `goto fail`
was executed, and `rc` (initialised to `0`). -/
structure Frame where
  trace : List Event := []
  jumped : Bool := false
  rc : Int := 0

/-- The cast `(jboolean)x`: `jboolean` is an unsigned 8-bit integer. -/
def jbooleanCast (x : Int) : Int := x % 2 ^ 8

/-- The cast `(jint)x`: wrap to a signed 32-bit integer. -/
def jintCast (x : Int) : Int := (x + 2 ^ 31) % 2 ^ 32 - 2 ^ 31

/-- The cast `(jintLong)x` of a pointer: same width, same bits. -/
def jintLongCast (x : Int) : Int := x

/-- The statement
`if (arg) if ((lparg = (*env)->Get<kind>ArrayElements(env, arg, NULL)) == NULL) goto fail;`
Returns the new value of `lparg` (initially `NULL`) and the new frame.  After a
`goto fail` the statement is not reached. -/
def pinArg (env : JNIEnv) (slot : Nat) (kind : ArrayKind) (arg : Int) (f : Frame) :
    Int × Frame :=
  if f.jumped then (0, f)
  else if arg ≠ 0 then
    let lparg := env.GetArrayElements f.trace kind arg
    let f1 : Frame := { f with trace := f.trace ++ [Event.pin slot kind arg lparg] }
    if lparg = 0 then (lparg, { f1 with jumped := true }) else (lparg, f1)
  else (0, f)

/-- The statement `rc = (T)fn(args);` where `cast` is the cast `(T)`.  After a
`goto fail` the statement is not reached. -/
def callRc (env : JNIEnv) (fn : NativeFn) (cast : Int → Int) (args : List Int)
    (f : Frame) : Frame :=
  if f.jumped then f
  else
    let ret := env.callNative f.trace fn args
    { f with trace := f.trace ++ [Event.native fn args ret], rc := cast ret }

/-- The statement `fn(args);` of a `void` library function. -/
def callVoid (fn : NativeFn) (args : List Int) (f : Frame) : Frame :=
  if f.jumped then f
  else { f with trace := f.trace ++ [Event.native fn args 0] }

/-- The statement
`if (arg && lparg) (*env)->Release<kind>ArrayElements(env, arg, lparg, 0);`
It stands after the label `fail:` and is reached on every path. -/
def releaseArg (slot : Nat) (kind : ArrayKind) (arg lparg : Int) (f : Frame) : Frame :=
  if arg ≠ 0 ∧ lparg ≠ 0 then
    { f with trace := f.trace ++ [Event.release slot kind arg lparg 0] }
  else f

/-- Shim `GNOME_NATIVE(GnomeVFSMimeApplication_1sizeof)(env, that)`. -/
def GnomeVFSMimeApplication_1sizeof (env : JNIEnv) : Frame :=
  let f : Frame := {}
  let f := callRc env .GnomeVFSMimeApplication_sizeof jintCast [] f
  f

/-- Shim `GNOME_NATIVE(_1gnome_1icon_1lookup)(env, that, arg0, ..., arg7)`. -/
def _1gnome_1icon_1lookup (env : JNIEnv)
    (arg0 arg1 arg2 arg3 arg4 arg5 arg6 arg7 : Int) : Frame :=
  let f : Frame := {}
  let p2 := pinArg env 2 .byte arg2 f
  let lparg2 := p2.1
  let p3 := pinArg env 3 .byte arg3 p2.2
  let lparg3 := p3.1
  let p5 := pinArg env 5 .byte arg5 p3.2
  let lparg5 := p5.1
  let p7 := pinArg env 7 .int arg7 p5.2
  let lparg7 := p7.1
  let f := callRc env .gnome_icon_lookup jintLongCast
    [arg0, arg1, lparg2, lparg3, arg4, lparg5, arg6, lparg7] p7.2
  -- fail:
  let f := releaseArg 7 .int arg7 lparg7 f
  let f := releaseArg 5 .byte arg5 lparg5 f
  let f := releaseArg 3 .byte arg3 lparg3 f
  let f := releaseArg 2 .byte arg2 lparg2 f
  f

/-- Shim `GNOME_NATIVE(_1gnome_1icon_1theme_1lookup_1icon)(env, that, arg0, ..., arg4)`. -/
def _1gnome_1icon_1theme_1lookup_1icon (env : JNIEnv)
    (arg0 arg1 arg2 arg3 arg4 : Int) : Frame :=
  let f : Frame := {}
  let p3 := pinArg env 3 .intLong arg3 f
  let lparg3 := p3.1
  let p4 := pinArg env 4 .int arg4 p3.2
  let lparg4 := p4.1
  let f := callRc env .gnome_icon_theme_lookup_icon jintLongCast
    [arg0, arg1, arg2, lparg3, lparg4] p4.2
  -- fail:
  let f := releaseArg 4 .int arg4 lparg4 f
  let f := releaseArg 3 .intLong arg3 lparg3 f
  f

/-- Shim `GNOME_NATIVE(_1gnome_1icon_1theme_1new)(env, that)`. -/
def _1gnome_1icon_1theme_1new (env : JNIEnv) : Frame :=
  let f : Frame := {}
  let f := callRc env .gnome_icon_theme_new jintLongCast [] f
  f

/-- Shim `GNOME_NATIVE(_1gnome_1vfs_1get_1mime_1type)(env, that, arg0)`. -/
def _1gnome_1vfs_1get_1mime_1type (env : JNIEnv) (arg0 : Int) : Frame :=
  let f : Frame := {}
  let f := callRc env .gnome_vfs_get_mime_type jintLongCast [arg0] f
  f

/-- Shim `GNOME_NATIVE(_1gnome_1vfs_1init)(env, that)`. -/
def _1gnome_1vfs_1init (env : JNIEnv) : Frame :=
  let f : Frame := {}
  let f := callRc env .gnome_vfs_init jbooleanCast [] f
  f

/-- Shim `GNOME_NATIVE(_1gnome_1vfs_1is_1executable_1command_1string)(env, that, arg0)`. -/
def _1gnome_1vfs_1is_1executable_1command_1string (env : JNIEnv) (arg0 : Int) : Frame :=
  let f : Frame := {}
  let p0 := pinArg env 0 .byte arg0 f
  let lparg0 := p0.1
  let f := callRc env .gnome_vfs_is_executable_command_string jbooleanCast [lparg0] p0.2
  -- fail:
  let f := releaseArg 0 .byte arg0 lparg0 f
  f

/-- Shim `GNOME_NATIVE(_1gnome_1vfs_1make_1uri_1from_1input)(env, that, arg0)`. -/
def _1gnome_1vfs_1make_1uri_1from_1input (env : JNIEnv) (arg0 : Int) : Frame :=
  let f : Frame := {}
  let p0 := pinArg env 0 .byte arg0 f
  let lparg0 := p0.1
  let f := callRc env .gnome_vfs_make_uri_from_input jintLongCast [lparg0] p0.2
  -- fail:
  let f := releaseArg 0 .byte arg0 lparg0 f
  f

/-- Shim `GNOME_NATIVE(_1gnome_1vfs_1mime_1application_1free)(env, that, arg0)`. -/
def _1gnome_1vfs_1mime_1application_1free (arg0 : Int) : Frame :=
  let f : Frame := {}
  let f := callVoid .gnome_vfs_mime_application_free [arg0] f
  f

/-- Shim `GNOME_NATIVE(_1gnome_1vfs_1mime_1get_1default_1application)(env, that, arg0)`. -/
def _1gnome_1vfs_1mime_1get_1default_1application (env : JNIEnv) (arg0 : Int) : Frame :=
  let f : Frame := {}
  let p0 := pinArg env 0 .byte arg0 f
  let lparg0 := p0.1
  let f := callRc env .gnome_vfs_mime_get_default_application jintLongCast [lparg0] p0.2
  -- fail:
  let f := releaseArg 0 .byte arg0 lparg0 f
  f

/-- Shim `GNOME_NATIVE(_1gnome_1vfs_1mime_1type_1from_1name)(env, that, arg0)`. -/
def _1gnome_1vfs_1mime_1type_1from_1name (env : JNIEnv) (arg0 : Int) : Frame :=
  let f : Frame := {}
  let p0 := pinArg env 0 .byte arg0 f
  let lparg0 := p0.1
  let f := callRc env .gnome_vfs_mime_type_from_name jintLongCast [lparg0] p0.2
  -- fail:
  let f := releaseArg 0 .byte arg0 lparg0 f
  f

/-- Shim `GNOME_NATIVE(_1gnome_1vfs_1mime_1type_1get_1equivalence)(env, that, arg0, arg1)`. -/
def _1gnome_1vfs_1mime_1type_1get_1equivalence (env : JNIEnv) (arg0 arg1 : Int) : Frame :=
  let f : Frame := {}
  let p1 := pinArg env 1 .byte arg1 f
  let lparg1 := p1.1
  let f := callRc env .gnome_vfs_mime_type_get_equivalence jintLongCast [arg0, lparg1] p1.2
  -- fail:
  let f := releaseArg 1 .byte arg1 lparg1 f
  f

/-- Shim `GNOME_NATIVE(memmove)(env, that, arg0, arg1, arg2)`.
`addr_arg0` is `&_arg0`, the address of the local `GnomeVFSMimeApplication _arg0`.
The steps are: `if (arg0) if ((lparg0 = &_arg0) == NULL) goto fail;`, then
`memmove((void *)lparg0, (const void *)arg1, (size_t)arg2);` unless the jump was
taken, then after `fail:` the statement
`if (arg0 && lparg0) setGnomeVFSMimeApplicationFields(env, arg0, lparg0);`. -/
def memmove (addr_arg0 arg0 arg1 arg2 : Int) : Frame :=
  let f : Frame := {}
  let lparg0 : Int := if arg0 ≠ 0 then addr_arg0 else 0
  let f : Frame := if arg0 ≠ 0 ∧ lparg0 = 0 then { f with jumped := true } else f
  let f : Frame :=
    if f.jumped then f
    else { f with trace := f.trace ++ [Event.memmove lparg0 arg1 arg2] }
  -- fail:
  let f : Frame :=
    if arg0 ≠ 0 ∧ lparg0 ≠ 0 then
      { f with trace := f.trace ++ [Event.setFields arg0 lparg0] }
    else f
  f

/-- An invocation of one of the twelve shims that wrap a library function:
the Java-side native method together with its actual arguments. -/
inductive Call where
  | GnomeVFSMimeApplication_sizeof
  | _gnome_icon_lookup (arg0 arg1 arg2 arg3 arg4 arg5 arg6 arg7 : Int)
  | _gnome_icon_theme_lookup_icon (arg0 arg1 arg2 arg3 arg4 : Int)
  | _gnome_icon_theme_new
  | _gnome_vfs_get_mime_type (arg0 : Int)
  | _gnome_vfs_init
  | _gnome_vfs_is_executable_command_string (arg0 : Int)
  | _gnome_vfs_make_uri_from_input (arg0 : Int)
  | _gnome_vfs_mime_application_free (arg0 : Int)
  | _gnome_vfs_mime_get_default_application (arg0 : Int)
  | _gnome_vfs_mime_type_from_name (arg0 : Int)
  | _gnome_vfs_mime_type_get_equivalence (arg0 arg1 : Int)
  deriving DecidableEq, Repr

/-- Declared return type of a shim. -/
inductive ReturnType where
  | jint
  | jintLong
  | jboolean
  | void
  deriving DecidableEq, Repr

/-- What the caller of a shim observes. -/
structure Outcome where
  /-- The calls made, in order. -/
  trace : List Event
  /-- Whether `goto fail` was executed. -/
  jumped : Bool
  /-- The returned value; `none` for a `void` shim. -/
  result : Option Int

/-- Outcome of a shim that ends in `return rc;`. -/
def Frame.returning (f : Frame) : Outcome := ⟨f.trace, f.jumped, some f.rc⟩

/-- Outcome of a `void` shim. -/
def Frame.returningVoid (f : Frame) : Outcome := ⟨f.trace, f.jumped, none⟩

/-- Dispatch of an invocation to the shim of that name. -/
def run (env : JNIEnv) : Call → Outcome
  | .GnomeVFSMimeApplication_sizeof => (GnomeVFSMimeApplication_1sizeof env).returning
  | ._gnome_icon_lookup a0 a1 a2 a3 a4 a5 a6 a7 =>
      (_1gnome_1icon_1lookup env a0 a1 a2 a3 a4 a5 a6 a7).returning
  | ._gnome_icon_theme_lookup_icon a0 a1 a2 a3 a4 =>
      (_1gnome_1icon_1theme_1lookup_1icon env a0 a1 a2 a3 a4).returning
  | ._gnome_icon_theme_new => (_1gnome_1icon_1theme_1new env).returning
  | ._gnome_vfs_get_mime_type a0 => (_1gnome_1vfs_1get_1mime_1type env a0).returning
  | ._gnome_vfs_init => (_1gnome_1vfs_1init env).returning
  | ._gnome_vfs_is_executable_command_string a0 =>
      (_1gnome_1vfs_1is_1executable_1command_1string env a0).returning
  | ._gnome_vfs_make_uri_from_input a0 =>
      (_1gnome_1vfs_1make_1uri_1from_1input env a0).returning
  | ._gnome_vfs_mime_application_free a0 =>
      (_1gnome_1vfs_1mime_1application_1free a0).returningVoid
  | ._gnome_vfs_mime_get_default_application a0 =>
      (_1gnome_1vfs_1mime_1get_1default_1application env a0).returning
  | ._gnome_vfs_mime_type_from_name a0 =>
      (_1gnome_1vfs_1mime_1type_1from_1name env a0).returning
  | ._gnome_vfs_mime_type_get_equivalence a0 a1 =>
      (_1gnome_1vfs_1mime_1type_1get_1equivalence env a0 a1).returning

/-! ## Vocabulary of the properties -/

/-- An argument of a shim as declared in its signature: a primitive
(`jint`, `jintLong`) or a managed array reference. -/
inductive Arg where
  | prim (v : Int)
  | array (kind : ArrayKind) (ref : Int)
  deriving DecidableEq, Repr

/-- The argument list of an invocation, in signature order (after `env, that`). -/
def Call.args : Call → List Arg
  | .GnomeVFSMimeApplication_sizeof => []
  | ._gnome_icon_lookup a0 a1 a2 a3 a4 a5 a6 a7 =>
      [.prim a0, .prim a1, .array .byte a2, .array .byte a3, .prim a4,
       .array .byte a5, .prim a6, .array .int a7]
  | ._gnome_icon_theme_lookup_icon a0 a1 a2 a3 a4 =>
      [.prim a0, .prim a1, .prim a2, .array .intLong a3, .array .int a4]
  | ._gnome_icon_theme_new => []
  | ._gnome_vfs_get_mime_type a0 => [.prim a0]
  | ._gnome_vfs_init => []
  | ._gnome_vfs_is_executable_command_string a0 => [.array .byte a0]
  | ._gnome_vfs_make_uri_from_input a0 => [.array .byte a0]
  | ._gnome_vfs_mime_application_free a0 => [.prim a0]
  | ._gnome_vfs_mime_get_default_application a0 => [.array .byte a0]
  | ._gnome_vfs_mime_type_from_name a0 => [.array .byte a0]
  | ._gnome_vfs_mime_type_get_equivalence a0 a1 => [.prim a0, .array .byte a1]

/-- The library function a shim corresponds to. -/
def Call.fn : Call → NativeFn
  | .GnomeVFSMimeApplication_sizeof => .GnomeVFSMimeApplication_sizeof
  | ._gnome_icon_lookup .. => .gnome_icon_lookup
  | ._gnome_icon_theme_lookup_icon .. => .gnome_icon_theme_lookup_icon
  | ._gnome_icon_theme_new => .gnome_icon_theme_new
  | ._gnome_vfs_get_mime_type .. => .gnome_vfs_get_mime_type
  | ._gnome_vfs_init => .gnome_vfs_init
  | ._gnome_vfs_is_executable_command_string .. => .gnome_vfs_is_executable_command_string
  | ._gnome_vfs_make_uri_from_input .. => .gnome_vfs_make_uri_from_input
  | ._gnome_vfs_mime_application_free .. => .gnome_vfs_mime_application_free
  | ._gnome_vfs_mime_get_default_application .. => .gnome_vfs_mime_get_default_application
  | ._gnome_vfs_mime_type_from_name .. => .gnome_vfs_mime_type_from_name
  | ._gnome_vfs_mime_type_get_equivalence .. => .gnome_vfs_mime_type_get_equivalence

/-- The declared return type of a shim (`JNIEXPORT <type> JNICALL`). -/
def Call.returnType : Call → ReturnType
  | .GnomeVFSMimeApplication_sizeof => .jint
  | ._gnome_vfs_init => .jboolean
  | ._gnome_vfs_is_executable_command_string .. => .jboolean
  | ._gnome_vfs_mime_application_free .. => .void
  | _ => .jintLong

/-- Conversion of a library result to a declared return type. -/
def ReturnType.convert : ReturnType → Int → Option Int
  | .jint, x => some (jintCast x)
  | .jintLong, x => some (jintLongCast x)
  | .jboolean, x => some (jbooleanCast x)
  | .void, _ => none

/-- The shim argument an event is made for, if it is a pin or a release. -/
def Event.slot? : Event → Option Nat
  | .pin s .. => some s
  | .release s .. => some s
  | _ => none

/-- Recogniser of pin events. -/
def Event.isPin : Event → Bool
  | .pin .. => true
  | _ => false

/-- Recogniser of library calls. -/
def Event.isNative : Event → Bool
  | .native .. => true
  | _ => false

/-- Recogniser of release events. -/
def Event.isRelease : Event → Bool
  | .release .. => true
  | _ => false

/-- Recogniser of release events made for the shim argument `slot`. -/
def Event.isReleaseAt (slot : Nat) : Event → Bool
  | .release s .. => s == slot
  | _ => false

/-- Recogniser of `memmove` calls. -/
def Event.isMemmove : Event → Bool
  | .memmove .. => true
  | _ => false

/-- Recogniser of `setGnomeVFSMimeApplicationFields` calls. -/
def Event.isSetFields : Event → Bool
  | .setFields .. => true
  | _ => false

/-- The pins the general contract of the shims prescribes for an argument list
("pin any array arguments") when every pin succeeds: each non-null array
argument, in signature order, is pinned through the JNI environment with its
own element type and its own reference.  It is computed from the arguments and
the environment alone, not from a run.  `i` is the position of the head of the
list, `hist` the calls made before it. -/
def expectedPinsFrom (env : JNIEnv) : Nat → List Arg → List Event → List Event
  | _, [], _ => []
  | i, .prim _ :: rest, hist => expectedPinsFrom env (i + 1) rest hist
  | i, .array kind ref :: rest, hist =>
      if ref = 0 then expectedPinsFrom env (i + 1) rest hist
      else
        Event.pin i kind ref (env.GetArrayElements hist kind ref) ::
          expectedPinsFrom env (i + 1) rest
            (hist ++ [Event.pin i kind ref (env.GetArrayElements hist kind ref)])

/-- The actual arguments the general contract prescribes for the library call
when every pin succeeds: each primitive unchanged in its position, each
non-null array replaced by the buffer the JNI environment returns for it,
`NULL` for a null array reference.  It is computed from the arguments and the
environment alone, not from a run. -/
def expectedArgsFrom (env : JNIEnv) : Nat → List Arg → List Event → List Int
  | _, [], _ => []
  | i, .prim v :: rest, hist => v :: expectedArgsFrom env (i + 1) rest hist
  | i, .array kind ref :: rest, hist =>
      if ref = 0 then 0 :: expectedArgsFrom env (i + 1) rest hist
      else
        env.GetArrayElements hist kind ref ::
          expectedArgsFrom env (i + 1) rest
            (hist ++ [Event.pin i kind ref (env.GetArrayElements hist kind ref)])

/-- Expected pins of an invocation. -/
def Call.expectedPins (c : Call) (env : JNIEnv) : List Event :=
  expectedPinsFrom env 0 c.args []

/-- Expected actual arguments of the library call of an invocation. -/
def Call.expectedArgs (c : Call) (env : JNIEnv) : List Int :=
  expectedArgsFrom env 0 c.args []

/-- The array arguments of an argument list, each with its position and
element type.  `i` is the position of the head of the list. -/
def arraysFrom : Nat → List Arg → List (Nat × ArrayKind × Int)
  | _, [] => []
  | i, .prim _ :: rest => arraysFrom (i + 1) rest
  | i, .array kind ref :: rest => (i, kind, ref) :: arraysFrom (i + 1) rest

/-- The array arguments of an invocation: position, element type, reference. -/
def Call.arrays (c : Call) : List (Nat × ArrayKind × Int) :=
  arraysFrom 0 c.args

/-- A pin made during the invocation returned `NULL`. -/
def pinFailed (t : List Event) : Prop :=
  ∃ slot kind array, Event.pin slot kind array 0 ∈ t

/-- World used in the examples: pinning the array `7` fails, pinning any other
array `a` yields the buffer `1000 + a`; every library function returns `257`. -/
def envExample : JNIEnv where
  GetArrayElements := fun _ _ a => if a = 7 then 0 else 1000 + a
  callNative := fun _ _ _ => 257

/-- Example invocation of `_gnome_icon_lookup`: `arg2` is the array `3`, whose
pin succeeds, `arg3` is the array `7`, whose pin fails; `arg5` and `arg7` are
never pinned. -/
def callFailing : Call := ._gnome_icon_lookup 11 12 3 7 14 5 16 8

/-- Example invocation of `_gnome_icon_lookup`: `arg3` is a null reference and
the pins of `arg2`, `arg5` and `arg7` succeed. -/
def callOk : Call := ._gnome_icon_lookup 11 12 3 0 14 5 16 8

set_option maxHeartbeats 4000000

/-! ## Step lemmas -/

/-- After `goto fail` a pin statement is skipped. -/
theorem pinArg_jumped (env : JNIEnv) (s : Nat) (k : ArrayKind) (a : Int)
    (t : List Event) (r : Int) :
    pinArg env s k a ⟨t, true, r⟩ = (0, ⟨t, true, r⟩) := by
  simp [pinArg]

/-- The three ways a reached pin statement can go: null reference, pin failure,
pin success. -/
theorem pinArg_step (env : JNIEnv) (s : Nat) (k : ArrayKind) (a : Int)
    (t : List Event) (r : Int) :
    pinArg env s k a ⟨t, false, r⟩ =
      if a = 0 then (0, ⟨t, false, r⟩)
      else if env.GetArrayElements t k a = 0 then (0, ⟨t ++ [Event.pin s k a 0], true, r⟩)
      else (env.GetArrayElements t k a,
            ⟨t ++ [Event.pin s k a (env.GetArrayElements t k a)], false, r⟩) := by
  by_cases ha : a = 0
  · simp [pinArg, ha]
  · by_cases hb : env.GetArrayElements t k a = 0
    · simp [pinArg, ha, hb]
    · simp [pinArg, ha, hb]

/-- After `goto fail` the library call is skipped. -/
theorem callRc_jumped (env : JNIEnv) (fn : NativeFn) (cast : Int → Int) (args : List Int)
    (t : List Event) (r : Int) :
    callRc env fn cast args ⟨t, true, r⟩ = ⟨t, true, r⟩ := by
  simp [callRc]

/-- A reached library call is made and its converted result stored in `rc`. -/
theorem callRc_step (env : JNIEnv) (fn : NativeFn) (cast : Int → Int) (args : List Int)
    (t : List Event) (r : Int) :
    callRc env fn cast args ⟨t, false, r⟩ =
      ⟨t ++ [Event.native fn args (env.callNative t fn args)], false,
        cast (env.callNative t fn args)⟩ := by
  simp [callRc]

/-- A reached `void` library call is made. -/
theorem callVoid_step (fn : NativeFn) (args : List Int) (t : List Event) (r : Int) :
    callVoid fn args ⟨t, false, r⟩ = ⟨t ++ [Event.native fn args 0], false, r⟩ := by
  simp [callVoid]

/-- No release for a null array reference. -/
theorem releaseArg_null (s : Nat) (k : ArrayKind) (b : Int) (f : Frame) :
    releaseArg s k 0 b f = f := by
  simp [releaseArg]

/-- No release while `lparg` is `NULL`. -/
theorem releaseArg_nopin (s : Nat) (k : ArrayKind) (a : Int) (f : Frame) :
    releaseArg s k a 0 f = f := by
  simp [releaseArg]

/-- A pinned array is released with mode `0`. -/
theorem releaseArg_step (s : Nat) (k : ArrayKind) (a b : Int) (t : List Event)
    (j : Bool) (r : Int) (ha : a ≠ 0) (hb : b ≠ 0) :
    releaseArg s k a b ⟨t, j, r⟩ = ⟨t ++ [Event.release s k a b 0], j, r⟩ := by
  simp [releaseArg, ha, hb]

/-- No pin failed in an empty trace. -/
theorem pinFailed_nil : ¬ pinFailed [] := by
  simp [pinFailed]

/-- A trace has a failed pin if and only if its head is one or its tail has one. -/
theorem pinFailed_cons (e : Event) (t : List Event) :
    pinFailed (e :: t) ↔ (∃ s k a, e = Event.pin s k a 0) ∨ pinFailed t := by
  constructor
  · rintro ⟨s, k, a, h⟩
    rcases List.mem_cons.mp h with h | h
    · exact Or.inl ⟨s, k, a, h.symm⟩
    · exact Or.inr ⟨s, k, a, h⟩
  · rintro (⟨s, k, a, h⟩ | ⟨s, k, a, h⟩)
    · exact ⟨s, k, a, h ▸ List.mem_cons_self _ _⟩
    · exact ⟨s, k, a, List.mem_cons_of_mem _ h⟩

/-! ## Concrete runs

The traces of the two example invocations, computed by evaluation. -/

/-- The failing example: `arg2` is pinned, the pin of `arg3` fails, nothing else
is attempted, `arg2` is released and `0` is returned. -/
theorem run_callFailing :
    (run envExample callFailing).trace =
        [Event.pin 2 .byte 3 1003, Event.pin 3 .byte 7 0, Event.release 2 .byte 3 1003 0] ∧
      (run envExample callFailing).result = some 0 ∧
      (run envExample callFailing).jumped = true := by
  decide

/-- The successful example: three pins, the library call with the pinned
buffers (and `NULL` for the null `arg3`), three releases in reverse order. -/
theorem run_callOk :
    (run envExample callOk).trace =
        [Event.pin 2 .byte 3 1003, Event.pin 5 .byte 5 1005, Event.pin 7 .int 8 1008,
         Event.native .gnome_icon_lookup [11, 12, 1003, 0, 14, 1005, 16, 1008] 257,
         Event.release 7 .int 8 1008 0, Event.release 5 .byte 5 1005 0,
         Event.release 2 .byte 3 1003 0] ∧
      (run envExample callOk).result = some 257 ∧
      (run envExample callOk).jumped = false := by
  decide

/-- No pin fails in the successful example. -/
theorem callOk_not_pinFailed : ¬ pinFailed (run envExample callOk).trace := by
  rintro ⟨s, k, a, h⟩
  revert h
  simp [run_callOk.1]

/-! ## Properties -/

/-- Claim C1: in every shim, for every combination of null and non-null array
arguments and of pin outcomes, if some pin returned `NULL` then no library
function is called during that invocation. -/
theorem pin_failure_skips_native_call (env : JNIEnv) (c : Call)
    (h : pinFailed (run env c).trace) :
    ∀ fn args ret, Event.native fn args ret ∉ (run env c).trace := by
  revert h
  cases c <;>
    simp only [run, Frame.returning, Frame.returningVoid,
      GnomeVFSMimeApplication_1sizeof, _1gnome_1icon_1lookup,
      _1gnome_1icon_1theme_1lookup_1icon, _1gnome_1icon_1theme_1new,
      _1gnome_1vfs_1get_1mime_1type, _1gnome_1vfs_1init,
      _1gnome_1vfs_1is_1executable_1command_1string,
      _1gnome_1vfs_1make_1uri_1from_1input, _1gnome_1vfs_1mime_1application_1free,
      _1gnome_1vfs_1mime_1get_1default_1application, _1gnome_1vfs_1mime_1type_1from_1name,
      _1gnome_1vfs_1mime_1type_1get_1equivalence] <;>
    (repeat (any_goals first
      | split_ifs
      | simp only [pinArg_step, pinArg_jumped, callRc_step, callRc_jumped, callVoid_step,
          releaseArg_null, releaseArg_nopin, releaseArg_step, List.nil_append,
          List.cons_append, ne_eq, not_false_eq_true, *])) <;>
    simp [pinFailed, @eq_comm _ (0 : Int), *]

/-- Witness of C1 on the failing example. -/
theorem pin_failure_skips_native_call_witness :
    pinFailed (run envExample callFailing).trace ∧
      ∀ fn args ret, Event.native fn args ret ∉ (run envExample callFailing).trace :=
  ⟨⟨3, .byte, 7, by decide⟩,
    pin_failure_skips_native_call envExample callFailing ⟨3, .byte, 7, by decide⟩⟩

/-- Claim C2: in every shim and for every input, an array whose pin succeeded
(the pin made for argument `slot` returned a buffer `buf ≠ NULL`) is released
exactly once before the shim returns: the release events made for that argument
are exactly one, for that array and that buffer.  This holds whether or not the
library call is made. -/
theorem pinned_array_released_exactly_once (env : JNIEnv) (c : Call)
    (slot : Nat) (kind : ArrayKind) (array buf : Int)
    (hpin : Event.pin slot kind array buf ∈ (run env c).trace) (hbuf : buf ≠ 0) :
    (run env c).trace.filter (Event.isReleaseAt slot) =
      [Event.release slot kind array buf 0] := by
  revert hpin
  cases c <;>
    simp only [run, Frame.returning, Frame.returningVoid,
      GnomeVFSMimeApplication_1sizeof, _1gnome_1icon_1lookup,
      _1gnome_1icon_1theme_1lookup_1icon, _1gnome_1icon_1theme_1new,
      _1gnome_1vfs_1get_1mime_1type, _1gnome_1vfs_1init,
      _1gnome_1vfs_1is_1executable_1command_1string,
      _1gnome_1vfs_1make_1uri_1from_1input, _1gnome_1vfs_1mime_1application_1free,
      _1gnome_1vfs_1mime_1get_1default_1application, _1gnome_1vfs_1mime_1type_1from_1name,
      _1gnome_1vfs_1mime_1type_1get_1equivalence] <;>
    (repeat (any_goals first
      | split_ifs
      | simp only [pinArg_step, pinArg_jumped, callRc_step, callRc_jumped, callVoid_step,
          releaseArg_null, releaseArg_nopin, releaseArg_step, List.nil_append,
          List.cons_append, ne_eq, not_false_eq_true, *])) <;>
    intro hpin <;> simp at hpin <;> casesm* _ ∨ _, _ ∧ _ <;> subst_vars <;>
      simp [Event.isReleaseAt, List.filter, *] at *

/-- Witness of C2 on the failing example, where the library call is skipped:
`arg2` was pinned before the pin of `arg3` failed, and is released once. -/
theorem pinned_array_released_exactly_once_witness :
    (Event.pin 2 .byte 3 1003 ∈ (run envExample callFailing).trace ∧ (1003 : Int) ≠ 0) ∧
      (run envExample callFailing).trace.filter (Event.isReleaseAt 2) =
        [Event.release 2 .byte 3 1003 0] :=
  ⟨⟨by decide, by decide⟩,
    pinned_array_released_exactly_once envExample callFailing 2 .byte 3 1003
      (by decide) (by decide)⟩

/-- Claim C3: in every shim, if some pin returned `NULL` the shim returns `0`
(`jintLong` `0`, or `jboolean` `0` for `_gnome_vfs_is_executable_command_string`),
whatever the other arguments are. -/
theorem pin_failure_returns_zero (env : JNIEnv) (c : Call)
    (h : pinFailed (run env c).trace) :
    (run env c).result = some 0 := by
  revert h
  cases c <;>
    simp only [run, Frame.returning, Frame.returningVoid,
      GnomeVFSMimeApplication_1sizeof, _1gnome_1icon_1lookup,
      _1gnome_1icon_1theme_1lookup_1icon, _1gnome_1icon_1theme_1new,
      _1gnome_1vfs_1get_1mime_1type, _1gnome_1vfs_1init,
      _1gnome_1vfs_1is_1executable_1command_1string,
      _1gnome_1vfs_1make_1uri_1from_1input, _1gnome_1vfs_1mime_1application_1free,
      _1gnome_1vfs_1mime_1get_1default_1application, _1gnome_1vfs_1mime_1type_1from_1name,
      _1gnome_1vfs_1mime_1type_1get_1equivalence] <;>
    (repeat (any_goals first
      | split_ifs
      | simp only [pinArg_step, pinArg_jumped, callRc_step, callRc_jumped, callVoid_step,
          releaseArg_null, releaseArg_nopin, releaseArg_step, List.nil_append,
          List.cons_append, ne_eq, not_false_eq_true, *])) <;>
    simp [pinFailed, @eq_comm _ (0 : Int), *]

/-- Witness of C3 on the failing example. -/
theorem pin_failure_returns_zero_witness :
    pinFailed (run envExample callFailing).trace ∧
      (run envExample callFailing).result = some 0 :=
  ⟨⟨3, .byte, 7, by decide⟩,
    pin_failure_returns_zero envExample callFailing ⟨3, .byte, 7, by decide⟩⟩

/-- Claim C4: in every one of the twelve shims, for every input in which each
non-null array argument pins successfully (vacuous for the shims without array
arguments): the pins made are exactly those of the non-null array arguments,
in order, each with its own element type and reference; the library function
of the shim is called exactly once, with every primitive argument unchanged in
its position and every array argument replaced by the buffer the JNI
environment returned for it (`NULL` for a null reference); and the shim returns
the value that call returned, converted to its declared return type.  The
expected pins and arguments are computed from the arguments and the environment,
independently of the run. -/
theorem successful_pins_pass_through (env : JNIEnv) (c : Call)
    (h : ¬ pinFailed (c.expectedPins env)) :
    (run env c).trace.filter Event.isPin = c.expectedPins env ∧
      ∃ ret, (run env c).trace.filter Event.isNative =
          [Event.native c.fn (c.expectedArgs env) ret] ∧
        (c.returnType ≠ ReturnType.void →
          ret = env.callNative (c.expectedPins env) c.fn (c.expectedArgs env)) ∧
        (run env c).result = c.returnType.convert ret := by
  revert h
  cases c <;>
    simp only [run, Frame.returning, Frame.returningVoid,
      GnomeVFSMimeApplication_1sizeof, _1gnome_1icon_1lookup,
      _1gnome_1icon_1theme_1lookup_1icon, _1gnome_1icon_1theme_1new,
      _1gnome_1vfs_1get_1mime_1type, _1gnome_1vfs_1init,
      _1gnome_1vfs_1is_1executable_1command_1string,
      _1gnome_1vfs_1make_1uri_1from_1input, _1gnome_1vfs_1mime_1application_1free,
      _1gnome_1vfs_1mime_1get_1default_1application, _1gnome_1vfs_1mime_1type_1from_1name,
      _1gnome_1vfs_1mime_1type_1get_1equivalence] <;>
    (repeat (any_goals first
      | split_ifs
      | simp only [pinArg_step, pinArg_jumped, callRc_step, callRc_jumped, callVoid_step,
          releaseArg_null, releaseArg_nopin, releaseArg_step, List.nil_append,
          List.cons_append, ne_eq, not_false_eq_true, *])) <;>
    simp [pinFailed_nil, pinFailed_cons, Event.isNative, Event.isPin, List.filter, Call.fn,
      Call.expectedArgs, expectedArgsFrom, Call.expectedPins, expectedPinsFrom, Call.args,
      Call.returnType, ReturnType.convert, *]

/-- No expected pin fails in the successful example. -/
theorem callOk_expectedPins_ok : ¬ pinFailed (callOk.expectedPins envExample) := by
  simp [Call.expectedPins, expectedPinsFrom, Call.args, callOk, envExample, pinFailed_nil,
    pinFailed_cons]

/-- The expected pins and library arguments of the successful example. -/
theorem callOk_expected :
    callOk.expectedPins envExample =
        [Event.pin 2 .byte 3 1003, Event.pin 5 .byte 5 1005, Event.pin 7 .int 8 1008] ∧
      callOk.expectedArgs envExample = [11, 12, 1003, 0, 14, 1005, 16, 1008] := by
  decide

/-- Witness of C4 on the successful example. -/
theorem successful_pins_pass_through_witness :
    ¬ pinFailed (callOk.expectedPins envExample) ∧
      ((run envExample callOk).trace.filter Event.isPin = callOk.expectedPins envExample ∧
        ∃ ret, (run envExample callOk).trace.filter Event.isNative =
            [Event.native callOk.fn (callOk.expectedArgs envExample) ret] ∧
          (callOk.returnType ≠ ReturnType.void →
            ret = envExample.callNative (callOk.expectedPins envExample) callOk.fn
              (callOk.expectedArgs envExample)) ∧
          (run envExample callOk).result = callOk.returnType.convert ret) :=
  ⟨callOk_expectedPins_ok,
    successful_pins_pass_through envExample callOk callOk_expectedPins_ok⟩

/-- Claim C5: in every shim and for every input, the sequence of events is the
pins, followed by the library call (at most one), followed by the releases.
Hence no pin and no library call occurs after a release, and a pinned buffer is
never handed to the library after it has been released. -/
theorem pins_then_call_then_releases (env : JNIEnv) (c : Call) :
    (run env c).trace =
        (run env c).trace.filter Event.isPin ++
          ((run env c).trace.filter Event.isNative ++
            (run env c).trace.filter Event.isRelease) ∧
      ((run env c).trace.filter Event.isNative).length ≤ 1 := by
  cases c <;>
    simp only [run, Frame.returning, Frame.returningVoid,
      GnomeVFSMimeApplication_1sizeof, _1gnome_1icon_1lookup,
      _1gnome_1icon_1theme_1lookup_1icon, _1gnome_1icon_1theme_1new,
      _1gnome_1vfs_1get_1mime_1type, _1gnome_1vfs_1init,
      _1gnome_1vfs_1is_1executable_1command_1string,
      _1gnome_1vfs_1make_1uri_1from_1input, _1gnome_1vfs_1mime_1application_1free,
      _1gnome_1vfs_1mime_1get_1default_1application, _1gnome_1vfs_1mime_1type_1from_1name,
      _1gnome_1vfs_1mime_1type_1get_1equivalence] <;>
    (repeat (any_goals first
      | split_ifs
      | simp only [pinArg_step, pinArg_jumped, callRc_step, callRc_jumped, callVoid_step,
          releaseArg_null, releaseArg_nopin, releaseArg_step, List.nil_append,
          List.cons_append, ne_eq, not_false_eq_true, *])) <;>
    simp [Event.isNative, Event.isPin, Event.isRelease, List.filter]

/-- Claim C6: in every shim and for every input, (1) a release is issued only
for a non-null array whose pin, made in this invocation, returned that non-null
buffer; (2) a null array reference gets neither a pin nor a release; (3) after
a failed pin, the array whose pin failed gets no release and the arrays
positioned after it get neither a pin nor a release. -/
theorem release_only_for_pinned (env : JNIEnv) (c : Call) :
    (∀ s k a b m, Event.release s k a b m ∈ (run env c).trace →
        a ≠ 0 ∧ b ≠ 0 ∧ Event.pin s k a b ∈ (run env c).trace) ∧
    (∀ s k, (s, k, (0 : Int)) ∈ c.arrays →
        ∀ e ∈ (run env c).trace, e.slot? ≠ some s) ∧
    (∀ s k a, Event.pin s k a 0 ∈ (run env c).trace →
        ∀ e ∈ (run env c).trace,
          e.isReleaseAt s = false ∧ ∀ s', s < s' → e.slot? ≠ some s') := by
  cases c <;>
    simp only [run, Frame.returning, Frame.returningVoid,
      GnomeVFSMimeApplication_1sizeof, _1gnome_1icon_1lookup,
      _1gnome_1icon_1theme_1lookup_1icon, _1gnome_1icon_1theme_1new,
      _1gnome_1vfs_1get_1mime_1type, _1gnome_1vfs_1init,
      _1gnome_1vfs_1is_1executable_1command_1string,
      _1gnome_1vfs_1make_1uri_1from_1input, _1gnome_1vfs_1mime_1application_1free,
      _1gnome_1vfs_1mime_1get_1default_1application, _1gnome_1vfs_1mime_1type_1from_1name,
      _1gnome_1vfs_1mime_1type_1get_1equivalence] <;>
    (repeat (any_goals first
      | split_ifs
      | simp only [pinArg_step, pinArg_jumped, callRc_step, callRc_jumped, callVoid_step,
          releaseArg_null, releaseArg_nopin, releaseArg_step, List.nil_append,
          List.cons_append, ne_eq, not_false_eq_true, *])) <;>
    (refine ⟨?_, ?_, ?_⟩ <;> intros <;>
      simp [Call.arrays, arraysFrom, Call.args, Event.slot?, Event.isReleaseAt,
        @eq_comm _ (0 : Int), *] at * <;>
      casesm* _ ∨ _, _ ∧ _ <;> subst_vars <;>
      simp [Event.slot?, Event.isReleaseAt, *] at * <;> omega)

/-- Witness of C6 on the failing example: the only release is the one of `arg2`,
whose pin succeeded. -/
theorem release_only_for_pinned_witness :
    Event.release 2 .byte 3 1003 0 ∈ (run envExample callFailing).trace ∧
      ((3 : Int) ≠ 0 ∧ (1003 : Int) ≠ 0 ∧
        Event.pin 2 .byte 3 1003 ∈ (run envExample callFailing).trace) :=
  ⟨by decide,
    (release_only_for_pinned envExample callFailing).1 2 .byte 3 1003 0 (by decide)⟩

/-- Claim C7: in every shim, every release is made with mode `0`; and whenever
the library function is called, each non-null array argument was pinned to a
non-null buffer, that buffer is what the library received in the position of
the array, and that same buffer is released with mode `0` (which, for JNI,
copies the buffer back into the managed array and frees it).  For
`_gnome_icon_lookup` this covers `arg7`, for `_gnome_icon_theme_lookup_icon`
it covers `arg3` and `arg4`. -/
theorem releases_use_mode_zero (env : JNIEnv) (c : Call) :
    (∀ s k a b m, Event.release s k a b m ∈ (run env c).trace → m = 0) ∧
    (∀ args ret, Event.native c.fn args ret ∈ (run env c).trace →
      ∀ s k a, (s, k, a) ∈ c.arrays → a ≠ 0 →
        ∃ buf, args[s]? = some buf ∧ buf ≠ 0 ∧
          Event.pin s k a buf ∈ (run env c).trace ∧
          Event.release s k a buf 0 ∈ (run env c).trace) := by
  cases c <;>
    simp only [run, Frame.returning, Frame.returningVoid,
      GnomeVFSMimeApplication_1sizeof, _1gnome_1icon_1lookup,
      _1gnome_1icon_1theme_1lookup_1icon, _1gnome_1icon_1theme_1new,
      _1gnome_1vfs_1get_1mime_1type, _1gnome_1vfs_1init,
      _1gnome_1vfs_1is_1executable_1command_1string,
      _1gnome_1vfs_1make_1uri_1from_1input, _1gnome_1vfs_1mime_1application_1free,
      _1gnome_1vfs_1mime_1get_1default_1application, _1gnome_1vfs_1mime_1type_1from_1name,
      _1gnome_1vfs_1mime_1type_1get_1equivalence] <;>
    (repeat (any_goals first
      | split_ifs
      | simp only [pinArg_step, pinArg_jumped, callRc_step, callRc_jumped, callVoid_step,
          releaseArg_null, releaseArg_nopin, releaseArg_step, List.nil_append,
          List.cons_append, ne_eq, not_false_eq_true, *])) <;>
    (refine ⟨?_, ?_⟩ <;> intros <;>
      simp [Call.arrays, arraysFrom, Call.args, Call.fn, *] at * <;>
      casesm* _ ∨ _, _ ∧ _ <;> subst_vars <;>
      simp [*] at *)

/-- Witness of C7 on the successful example: the output array `arg7` (the array
`8`) is pinned to `1008`, the library receives `1008` in position 7, and `1008`
is released with mode `0`. -/
theorem releases_use_mode_zero_witness :
    (Event.native callOk.fn [11, 12, 1003, 0, 14, 1005, 16, 1008] 257 ∈
        (run envExample callOk).trace ∧
      (7, ArrayKind.int, (8 : Int)) ∈ callOk.arrays ∧ (8 : Int) ≠ 0) ∧
    ∃ buf, ([11, 12, 1003, 0, 14, 1005, 16, 1008] : List Int)[7]? = some buf ∧ buf ≠ 0 ∧
      Event.pin 7 .int 8 buf ∈ (run envExample callOk).trace ∧
      Event.release 7 .int 8 buf 0 ∈ (run envExample callOk).trace :=
  ⟨⟨by decide, by decide, by decide⟩,
    (releases_use_mode_zero envExample callOk).2 [11, 12, 1003, 0, 14, 1005, 16, 1008] 257
      (by decide) 7 .int 8 (by decide) (by decide)⟩

/-- Claim C8: in the `memmove` shim, for every `arg0`, `arg1`, `arg2` (the
address of a local variable is never `NULL`): `goto fail` is not executed;
`memmove(lparg0, arg1, arg2)` is executed exactly once; when `arg0` is a
non-null reference the setter is called exactly once, on `arg0` and the local
struct, after the copy; when `arg0` is null the setter is not called. -/
theorem memmove_copies_once_then_sets_fields (addr_arg0 arg0 arg1 arg2 : Int)
    (haddr : addr_arg0 ≠ 0) :
    (memmove addr_arg0 arg0 arg1 arg2).jumped = false ∧
      (memmove addr_arg0 arg0 arg1 arg2).trace.filter Event.isMemmove =
        [Event.memmove (if arg0 ≠ 0 then addr_arg0 else 0) arg1 arg2] ∧
      (arg0 ≠ 0 → (memmove addr_arg0 arg0 arg1 arg2).trace =
        [Event.memmove addr_arg0 arg1 arg2, Event.setFields arg0 addr_arg0]) ∧
      (arg0 = 0 → (memmove addr_arg0 arg0 arg1 arg2).trace.filter Event.isSetFields = []) := by
  by_cases h0 : arg0 = 0
  · simp [memmove, h0, Event.isMemmove, Event.isSetFields, List.filter]
  · simp [memmove, h0, haddr, Event.isMemmove, Event.isSetFields, List.filter]

/-- Witness of C8 with a non-null object reference. -/
theorem memmove_copies_once_then_sets_fields_witness :
    (4096 : Int) ≠ 0 ∧
      ((memmove 4096 9 100 64).jumped = false ∧
        (memmove 4096 9 100 64).trace.filter Event.isMemmove =
          [Event.memmove (if (9 : Int) ≠ 0 then 4096 else 0) 100 64] ∧
        ((9 : Int) ≠ 0 → (memmove 4096 9 100 64).trace =
          [Event.memmove 4096 100 64, Event.setFields 9 4096]) ∧
        ((9 : Int) = 0 → (memmove 4096 9 100 64).trace.filter Event.isSetFields = [])) :=
  ⟨by decide, memmove_copies_once_then_sets_fields 4096 9 100 64 (by decide)⟩

/-- Claim C9: in the `memmove` shim, when `arg0` is a null reference the copy
is not skipped: `memmove` is called with destination `NULL`, source `arg1` and
count `arg2`, and nothing else happens.  When `arg0` is non-null the copy into
the local struct is made with source `arg1` and count `arg2`.  In every case
the source and the count of a `memmove` call are `arg1` and `arg2` as given:
the count is not bounded by any size `sizeofStruct` of the local struct. -/
theorem memmove_null_destination_and_unbounded_count
    (addr_arg0 arg0 arg1 arg2 : Int) :
    (arg0 = 0 → (memmove addr_arg0 arg0 arg1 arg2).trace = [Event.memmove 0 arg1 arg2]) ∧
      (arg0 ≠ 0 → addr_arg0 ≠ 0 →
        Event.memmove addr_arg0 arg1 arg2 ∈ (memmove addr_arg0 arg0 arg1 arg2).trace) ∧
      (∀ sizeofStruct dest src n : Int, sizeofStruct < arg2 →
        Event.memmove dest src n ∈ (memmove addr_arg0 arg0 arg1 arg2).trace →
          src = arg1 ∧ n = arg2) := by
  by_cases h0 : arg0 = 0
  · simp [memmove, h0]
  · by_cases ha : addr_arg0 = 0
    · simp [memmove, h0, ha]
    · simp [memmove, h0, ha]

/-- Witness of C9 with a null object reference and a count of `2 ^ 20` bytes. -/
theorem memmove_null_destination_and_unbounded_count_witness :
    (0 : Int) = 0 ∧ (memmove 4096 0 100 (2 ^ 20)).trace = [Event.memmove 0 100 (2 ^ 20)] :=
  ⟨rfl, (memmove_null_destination_and_unbounded_count 4096 0 100 (2 ^ 20)).1 rfl⟩

/-- Claim C10: for the boolean-returning shims `_gnome_vfs_init` and
`_gnome_vfs_is_executable_command_string`, when the library call is made and
returns the `gboolean` `g`, the shim returns `g` modulo `2 ^ 8`; so it returns
`1` for `g = 1`, `0` for `g = 0`, and a nonzero value exactly when `g` is not a
multiple of `256`. -/
theorem jboolean_result_mod_256 (env : JNIEnv) (c : Call)
    (hc : c = Call._gnome_vfs_init ∨
      ∃ arg0, c = Call._gnome_vfs_is_executable_command_string arg0)
    (args : List Int) (g : Int)
    (hcall : Event.native c.fn args g ∈ (run env c).trace) :
    (run env c).result = some (g % 2 ^ 8) ∧
      (g = 1 → (run env c).result = some 1) ∧
      (g = 0 → (run env c).result = some 0) ∧
      ((run env c).result ≠ some 0 ↔ ¬ (256 : Int) ∣ g) := by
  have key : (run env c).result = some (g % 2 ^ 8) := by
    revert hcall
    rcases hc with rfl | ⟨arg0, rfl⟩
    · simp only [run, Frame.returning, _1gnome_1vfs_1init, callRc_step, Call.fn]
      simp [jbooleanCast]
      intro _ h
      rw [h]
    · simp only [run, Frame.returning, _1gnome_1vfs_1is_1executable_1command_1string,
        Call.fn]
      simp only [pinArg_step]
      split_ifs <;>
        simp only [pinArg_jumped, callRc_step, callRc_jumped, releaseArg_null,
          releaseArg_nopin, releaseArg_step, List.nil_append, List.cons_append, ne_eq,
          not_false_eq_true, *] <;>
        simp [jbooleanCast] <;>
        intro _ h <;> rw [h]
  rw [key]
  refine ⟨rfl, ?_, ?_, ?_⟩
  · rintro rfl
    rfl
  · rintro rfl
    rfl
  · simp only [ne_eq, Option.some.injEq]
    norm_num

/-- Witness of C10: `_gnome_vfs_is_executable_command_string` on the array `3`,
where the library returns `257`; the shim returns `257 % 256 = 1`. -/
theorem jboolean_result_mod_256_witness :
    Event.native (Call._gnome_vfs_is_executable_command_string 3).fn [1003] 257 ∈
        (run envExample (Call._gnome_vfs_is_executable_command_string 3)).trace ∧
      ((run envExample (Call._gnome_vfs_is_executable_command_string 3)).result =
          some (257 % 2 ^ 8) ∧
        ((257 : Int) = 1 →
          (run envExample (Call._gnome_vfs_is_executable_command_string 3)).result = some 1) ∧
        ((257 : Int) = 0 →
          (run envExample (Call._gnome_vfs_is_executable_command_string 3)).result = some 0) ∧
        ((run envExample (Call._gnome_vfs_is_executable_command_string 3)).result ≠ some 0 ↔
          ¬ (256 : Int) ∣ 257)) :=
  ⟨by decide,
    jboolean_result_mod_256 envExample (Call._gnome_vfs_is_executable_command_string 3)
      (Or.inr ⟨3, rfl⟩) [1003] 257 (by decide)⟩

end GNOME
